import Mathlib

/-!
# Verification of the huggingface-datasets-builder pipeline

A shallow embedding of the repository's four source files:

* `src/builder/constants.py` — the `DATA_TYPE_MAP` registry of media feature
  types;
* `src/builder/configs.py` — the pydantic configuration models
  (`DatasetConfig`, `HuggingFaceConfig`, `Config`) and the cross-field
  validator `validate_columns_consistency`;
* `src/builder/utils.py` — the YAML loader `read_yaml`;
* `src/main.py` — the pipeline steps `prepare_dataframe`,
  `cast_dataset_columns`, `push_to_huggingface` and the orchestrator
  `create`.

Python dictionaries are modelled as insertion-ordered association lists
(`List (String × _)`); dataframes as ordered lists of named string columns;
the file system and the hub client as explicit function parameters.  Python
exceptions become an error type threaded through `Except`.  The `try/except`
blocks of the source log and re-raise, which is the identity on the error,
so they are not represented separately.  `create` additionally returns the
list of calls it hands to the hub client, so that theorems can speak about
what is uploaded and how many times.
-/

/-- The Python exception classes the pipeline can raise, each with its
message. pydantic's `ValidationError` subclasses `ValueError` and is folded
into `valueError`. -/
inductive PyError where
  | fileNotFoundError (msg : String)
  | keyError (msg : String)
  | valueError (msg : String)
  | yamlError (msg : String)
  | permissionError (msg : String)
deriving DecidableEq

/-- Feature type of a dataset column: `value` is the scalar feature that
`Dataset.from_pandas` infers; `audio`, `image`, `video` are the three media
feature objects of `datasets.features` used in `DATA_TYPE_MAP`. -/
inductive Feature where
  | value
  | audio
  | image
  | video
deriving DecidableEq

/-- `DATA_TYPE_MAP` from `src/builder/constants.py`: the registry mapping
media type strings to feature objects. -/
def DATA_TYPE_MAP : List (String × Feature) :=
  [("audio", Feature.audio), ("image", Feature.image), ("video", Feature.video)]

/-- `DatasetConfig` from `src/builder/configs.py` (its typed fields; the
`validate_columns_consistency` model validator is a separate function that
construction runs). -/
structure DatasetConfig where
  annotation_path : String
  dataframe_order : List String
  cast_columns : List (String × String)
  split : String
deriving DecidableEq

/-- `HuggingFaceConfig` from `src/builder/configs.py`. -/
structure HuggingFaceConfig where
  repo_id : String
  config_name : String
  commit_message : String
  «private» : Bool
  revision : String
deriving DecidableEq

/-- `Config` from `src/builder/configs.py`. -/
structure Config where
  dataset : DatasetConfig
  huggingface : HuggingFaceConfig
deriving DecidableEq

/-- The `@model_validator(mode="after")` of `DatasetConfig`:
`missing_columns = set(self.dataframe_order) - set(self.cast_columns)`;
raise `ValueError` if non-empty, else return `self` unchanged. -/
def DatasetConfig.validate_columns_consistency (c : DatasetConfig) :
    Except PyError DatasetConfig :=
  let missing_columns :=
    c.dataframe_order.filter (fun col => !(c.cast_columns.map Prod.fst).contains col)
  if missing_columns.isEmpty then
    Except.ok c
  else
    Except.error (PyError.valueError
      ("Missing cast types for columns: " ++ String.intercalate ", " missing_columns ++
        ". Please add these columns to cast_columns with appropriate types."))

/-- A parsed YAML document as handed to `Config(**config_dict)`: either a
mapping matching the pydantic schema of `Config` or anything else, on which
pydantic field validation fails. -/
inductive ConfigDict where
  | valid (dataset : DatasetConfig) (huggingface : HuggingFaceConfig)
  | invalid
deriving DecidableEq

/-- `Config(**config_dict)`: pydantic parses the fields and runs the
`validate_columns_consistency` model validator; a `ValidationError`
(a `ValueError`) is raised on failure. -/
def Config.construct : ConfigDict → Except PyError Config
  | ConfigDict.valid d h =>
    match d.validate_columns_consistency with
    | Except.ok d2 => Except.ok { dataset := d2, huggingface := h }
    | Except.error e => Except.error e
  | ConfigDict.invalid => Except.error (PyError.valueError "pydantic field validation failed")

/-- What probing the file system at a path can yield for `read_yaml`: the
path may not exist, exist but be unreadable for lack of permission, read but
fail to parse as YAML, or parse to content `d`. -/
inductive FileResult where
  | absent
  | permissionDenied
  | invalidYaml
  | yamlContent (d : ConfigDict)

/-- `read_yaml` from `src/builder/utils.py`: check existence (raising
`FileNotFoundError`), open the file (`PermissionError` on denial),
`yaml.safe_load` it (`YAMLError` on parse failure), and return the parsed
content. The `except` clauses log and re-raise each of these unchanged. -/
def read_yaml (fs : String → FileResult) (yaml_path : String) :
    Except PyError ConfigDict :=
  match fs yaml_path with
  | FileResult.absent =>
    Except.error (PyError.fileNotFoundError ("Config file not found: " ++ yaml_path))
  | FileResult.permissionDenied =>
    Except.error (PyError.permissionError ("Permission denied when reading: " ++ yaml_path))
  | FileResult.invalidYaml =>
    Except.error (PyError.yamlError "Failed to parse YAML file")
  | FileResult.yamlContent d => Except.ok d

/-- A pandas dataframe parsed from CSV: the columns in order, each a name
with its cell data. -/
abbrev DataFrame := List (String × List String)

/-- `dataframe[order]` column selection in pandas: produce the listed
columns in the given order; raise `KeyError` if any requested column is not
in the frame. -/
def selectColumns (df : DataFrame) : List String → Except PyError DataFrame
  | [] => Except.ok []
  | c :: rest =>
    match df.lookup c with
    | none => Except.error (PyError.keyError (c ++ " not in index"))
    | some colData =>
      match selectColumns df rest with
      | Except.ok t => Except.ok ((c, colData) :: t)
      | Except.error e => Except.error e

/-- `prepare_dataframe` from `src/main.py`: `pd.read_csv` on the configured
`annotation_path` (`FileNotFoundError` if absent, modelled by the file
system parameter `csvFs` returning `none`), then reorder the columns to
`dataframe_order`. The `except` clauses log and re-raise. -/
def prepare_dataframe (csvFs : String → Option DataFrame) (config : Config) :
    Except PyError DataFrame :=
  match csvFs config.dataset.annotation_path with
  | none =>
    Except.error (PyError.fileNotFoundError
      ("CSV file not found: " ++ config.dataset.annotation_path))
  | some dataframe => selectColumns dataframe config.dataset.dataframe_order

/-- A column of a Hugging Face `Dataset`: name, feature type, cell data. -/
structure Column where
  name : String
  feature : Feature
  data : List String
deriving DecidableEq

/-- A Hugging Face `Dataset`: its columns in order. -/
abbrev Dataset := List Column

/-- `Dataset.from_pandas`: each dataframe column becomes a dataset column
with an inferred scalar feature. -/
def Dataset.from_pandas (df : DataFrame) : Dataset :=
  df.map (fun p => { name := p.1, feature := Feature.value, data := p.2 })

/-- The column names of a dataset, in order. -/
def Dataset.column_names (ds : Dataset) : List String :=
  ds.map Column.name

/-- The feature of a named column, if present. -/
def Dataset.feature_of (ds : Dataset) (column : String) : Option Feature :=
  (ds.find? (fun c => c.name = column)).map Column.feature

/-- `Dataset.cast_column` of the `datasets` library: replace the feature of
an existing column; casting a column the dataset does not have fails (the
library raises when the new features do not match the table's columns). -/
def Dataset.cast_column (ds : Dataset) (column : String) (feature : Feature) :
    Except PyError Dataset :=
  if ds.any (fun c => c.name = column) then
    Except.ok (ds.map (fun c => if c.name = column then { c with feature := feature } else c))
  else
    Except.error (PyError.valueError ("Error casting column " ++ column))

/-- `cast_dataset_columns` from `src/main.py`: iterate the `cast_columns`
dict in insertion order; skip `"str"` entries; look the declared type up in
`DATA_TYPE_MAP` (`KeyError` if unknown, logged and re-raised); apply
`cast_column` (errors logged and re-raised). -/
def cast_dataset_columns (dataset : Dataset) :
    List (String × String) → Except PyError Dataset
  | [] => Except.ok dataset
  | (column, feature_type) :: rest =>
    if feature_type = "str" then
      cast_dataset_columns dataset rest
    else
      match DATA_TYPE_MAP.lookup feature_type with
      | none => Except.error (PyError.keyError feature_type)
      | some feature =>
        match dataset.cast_column column feature with
        | Except.error e => Except.error e
        | Except.ok d => cast_dataset_columns d rest

/-- A `DatasetDict`: split names mapped to datasets, in insertion order. -/
abbrev DatasetDict := List (String × Dataset)

/-- One invocation of `DatasetDict.push_to_hub`, with every argument
`push_to_huggingface` passes. -/
structure PushCall where
  datasets_dict : DatasetDict
  repo_id : String
  config_name : String
  commit_message : String
  «private» : Bool
  revision : String
  max_shard_size : String
  embed_external_files : Bool
deriving DecidableEq

/-- `push_to_huggingface` from `src/main.py`: call the hub client once with
the configured repository settings, the fixed `max_shard_size="1GB"` and
`embed_external_files=True`; log and re-raise any failure. The second
component records the calls made to the hub client. -/
def push_to_huggingface (hub : PushCall → Except PyError Unit)
    (datasets_dict : DatasetDict) (config : Config) :
    Except PyError Unit × List PushCall :=
  let call : PushCall :=
    { datasets_dict := datasets_dict
      repo_id := config.huggingface.repo_id
      config_name := config.huggingface.config_name
      commit_message := config.huggingface.commit_message
      «private» := config.huggingface.«private»
      revision := config.huggingface.revision
      max_shard_size := "1GB"
      embed_external_files := true }
  (hub call, [call])

/-- `create` from `src/main.py`: read the YAML config, construct and
validate `Config`, prepare the dataframe, wrap it as a dataset, cast the
columns, build a one-split `DatasetDict` and push it.  The surrounding
`try/except` logs and re-raises, leaving every step's exception unchanged.
The second component is the list of hub-client calls made. -/
def create (yamlFs : String → FileResult) (csvFs : String → Option DataFrame)
    (hub : PushCall → Except PyError Unit) (config_path : String) :
    Except PyError Unit × List PushCall :=
  match read_yaml yamlFs config_path with
  | Except.error e => (Except.error e, [])
  | Except.ok config_dict =>
    match Config.construct config_dict with
    | Except.error e => (Except.error e, [])
    | Except.ok config =>
      match prepare_dataframe csvFs config with
      | Except.error e => (Except.error e, [])
      | Except.ok dataframe =>
        let dataset := Dataset.from_pandas dataframe
        match cast_dataset_columns dataset config.dataset.cast_columns with
        | Except.error e => (Except.error e, [])
        | Except.ok dataset2 =>
          let datasets_dict : DatasetDict := [(config.dataset.split, dataset2)]
          push_to_huggingface hub datasets_dict config

/-! ## Basic lemmas about association-list lookup -/

theorem lookup_isSome_iff_mem_keys {α : Type} (l : List (String × α)) (a : String) :
    (l.lookup a).isSome ↔ a ∈ l.map Prod.fst := by
  induction l with
  | nil => simp [List.lookup]
  | cons p rest ih =>
    by_cases h : a = p.1
    · simp [List.lookup, h]
    · have hne : (a == p.1) = false := by simp [h]
      simp [List.lookup, hne, ih, h]

theorem lookup_eq_none_iff_not_mem_keys {α : Type} (l : List (String × α)) (a : String) :
    l.lookup a = none ↔ a ∉ l.map Prod.fst := by
  rw [← lookup_isSome_iff_mem_keys]
  cases l.lookup a <;> simp

/-! ## Lemmas about `selectColumns` -/

theorem selectColumns_ok_names (df : DataFrame) :
    ∀ (order : List String) (df2 : DataFrame),
    selectColumns df order = Except.ok df2 → df2.map Prod.fst = order := by
  intro order
  induction order with
  | nil => intro df2 h; simp [selectColumns] at h; simp [← h]
  | cons c rest ih =>
    intro df2 h
    simp only [selectColumns] at h
    match hl : df.lookup c with
    | none => rw [hl] at h; exact absurd h (by simp)
    | some colData =>
      rw [hl] at h
      match hr : selectColumns df rest with
      | Except.error e => rw [hr] at h; exact absurd h (by simp)
      | Except.ok t =>
        rw [hr] at h
        have ht := ih t hr
        simp at h
        simp [← h, ht]

theorem selectColumns_ok_of_all_present (df : DataFrame) :
    ∀ (order : List String),
    (∀ c ∈ order, (df.lookup c).isSome) →
    ∃ df2, selectColumns df order = Except.ok df2 := by
  intro order
  induction order with
  | nil => intro _; exact ⟨[], rfl⟩
  | cons c rest ih =>
    intro h
    have hc : (df.lookup c).isSome := h c (by simp)
    match hl : df.lookup c with
    | none => rw [hl] at hc; simp at hc
    | some colData =>
      obtain ⟨t, ht⟩ := ih (fun x hx => h x (by simp [hx]))
      exact ⟨(c, colData) :: t, by simp [selectColumns, hl, ht]⟩

theorem selectColumns_error_is_keyError (df : DataFrame) :
    ∀ (order : List String) (e : PyError),
    selectColumns df order = Except.error e → ∃ m, e = PyError.keyError m := by
  intro order
  induction order with
  | nil => intro e h; exact absurd h (by simp [selectColumns])
  | cons c rest ih =>
    intro e h
    simp only [selectColumns] at h
    match hl : df.lookup c with
    | none =>
      rw [hl] at h
      simp at h
      exact ⟨c ++ " not in index", h.symm⟩
    | some colData =>
      rw [hl] at h
      match hr : selectColumns df rest with
      | Except.error e2 =>
        rw [hr] at h
        simp at h
        exact h ▸ ih e2 hr
      | Except.ok t => rw [hr] at h; exact absurd h (by simp)

theorem selectColumns_error_of_missing (df : DataFrame) :
    ∀ (order : List String) (c : String),
    c ∈ order → df.lookup c = none →
    ∃ m, selectColumns df order = Except.error (PyError.keyError m) := by
  intro order
  induction order with
  | nil => intro c hc; exact absurd hc (by simp)
  | cons c0 rest ih =>
    intro c hc hnone
    by_cases h0 : df.lookup c0 = none
    · exact ⟨c0 ++ " not in index", by simp [selectColumns, h0]⟩
    · match hl : df.lookup c0 with
      | none => exact absurd hl h0
      | some colData =>
        have hcr : c ∈ rest := by
          rcases List.mem_cons.mp hc with h | h
          · rw [h] at hnone; rw [hnone] at hl; exact absurd hl (by simp)
          · exact h
        obtain ⟨m, hm⟩ := ih c hcr hnone
        exact ⟨m, by simp [selectColumns, hl, hm]⟩

/-! ## Lemmas about `Dataset.cast_column` -/

theorem cast_column_ok_iff (ds : Dataset) (column : String) (feature : Feature)
    (ds2 : Dataset) :
    ds.cast_column column feature = Except.ok ds2 ↔
      (ds.any (fun c => c.name = column) = true ∧
       ds2 = ds.map (fun c => if c.name = column then { c with feature := feature } else c)) := by
  unfold Dataset.cast_column
  by_cases h : ds.any (fun c => c.name = column) = true
  · rw [if_pos h]
    simp only [Except.ok.injEq]
    constructor
    · intro he
      exact ⟨h, he.symm⟩
    · intro he
      exact he.2.symm
  · rw [if_neg h]
    constructor
    · intro he
      exact Except.noConfusion he
    · intro he
      exact absurd he.1 h

theorem cast_column_error_of_not_mem (ds : Dataset) (column : String) (feature : Feature) :
    ds.any (fun c => c.name = column) = false →
    ds.cast_column column feature =
      Except.error (PyError.valueError ("Error casting column " ++ column)) := by
  intro h
  unfold Dataset.cast_column
  simp [h]


theorem feature_of_cons (c : Column) (rest : List Column) (col : String) :
    Dataset.feature_of (c :: rest) col =
      if c.name = col then some c.feature else Dataset.feature_of rest col := by
  by_cases h : c.name = col
  · simp only [Dataset.feature_of, if_pos h]
    rw [List.find?_cons_of_pos _ (by simp [h])]
    rfl
  · simp only [Dataset.feature_of, if_neg h]
    rw [List.find?_cons_of_neg _ (by simp [h])]

theorem column_names_map_update (ds : Dataset) (column : String) (feature : Feature) :
    Dataset.column_names
        (ds.map (fun c => if c.name = column then { c with feature := feature } else c)) =
      ds.column_names := by
  induction ds with
  | nil => rfl
  | cons c rest ih =>
    simp only [List.map_cons, Dataset.column_names] at ih ⊢
    by_cases h : c.name = column
    · rw [if_pos h]
      simp [ih]
    · rw [if_neg h]
      simp [ih]

theorem cast_column_ok_names (ds : Dataset) (column : String) (feature : Feature)
    (ds2 : Dataset) (h : ds.cast_column column feature = Except.ok ds2) :
    ds2.column_names = ds.column_names := by
  obtain ⟨_, h2⟩ := (cast_column_ok_iff ds column feature ds2).mp h
  rw [h2]
  exact column_names_map_update ds column feature

theorem feature_of_map_update_self (ds : Dataset) (column : String) (feature : Feature)
    (h : ds.any (fun c => c.name = column) = true) :
    Dataset.feature_of
        (ds.map (fun c => if c.name = column then { c with feature := feature } else c))
        column = some feature := by
  induction ds with
  | nil => simp at h
  | cons c rest ih =>
    rw [List.map_cons]
    by_cases hc : c.name = column
    · rw [if_pos hc, feature_of_cons]
      simp [hc]
    · rw [if_neg hc, feature_of_cons, if_neg hc]
      have hrest : rest.any (fun c => c.name = column) = true := by
        simp only [List.any_cons] at h
        rcases Bool.or_eq_true_iff.mp h with h | h
        · exact absurd (by simpa using h) hc
        · exact h
      exact ih hrest

theorem feature_of_map_update_other (ds : Dataset) (column other : String) (feature : Feature)
    (h : other ≠ column) :
    Dataset.feature_of
        (ds.map (fun c => if c.name = column then { c with feature := feature } else c))
        other = ds.feature_of other := by
  induction ds with
  | nil => rfl
  | cons c rest ih =>
    rw [List.map_cons]
    by_cases hc : c.name = column
    · have hco : ¬(c.name = other) := by
        rw [hc]
        exact fun hh => h hh.symm
      rw [if_pos hc, feature_of_cons, feature_of_cons, if_neg hco]
      have : ¬(({ c with feature := feature } : Column).name = other) := hco
      rw [if_neg this]
      exact ih
    · rw [if_neg hc, feature_of_cons, feature_of_cons]
      by_cases hco : c.name = other
      · rw [if_pos hco, if_pos hco]
      · rw [if_neg hco, if_neg hco]
        exact ih

theorem cast_column_ok_feature_self (ds : Dataset) (column : String) (feature : Feature)
    (ds2 : Dataset) (h : ds.cast_column column feature = Except.ok ds2) :
    ds2.feature_of column = some feature := by
  obtain ⟨h1, h2⟩ := (cast_column_ok_iff ds column feature ds2).mp h
  rw [h2]
  exact feature_of_map_update_self ds column feature h1

theorem cast_column_ok_feature_other (ds : Dataset) (column other : String) (feature : Feature)
    (ds2 : Dataset) (h : ds.cast_column column feature = Except.ok ds2) (hne : other ≠ column) :
    ds2.feature_of other = ds.feature_of other := by
  obtain ⟨_, h2⟩ := (cast_column_ok_iff ds column feature ds2).mp h
  rw [h2]
  exact feature_of_map_update_other ds column other feature hne

/-! ## Lemmas about `DATA_TYPE_MAP` -/

theorem data_type_map_lookup_cases (t : String) (f : Feature)
    (h : DATA_TYPE_MAP.lookup t = some f) :
    (t = "audio" ∧ f = Feature.audio) ∨ (t = "image" ∧ f = Feature.image) ∨
      (t = "video" ∧ f = Feature.video) := by
  by_cases h1 : t = "audio"
  · left
    refine ⟨h1, ?_⟩
    rw [h1] at h
    simpa [DATA_TYPE_MAP, List.lookup] using h.symm
  · by_cases h2 : t = "image"
    · right; left
      refine ⟨h2, ?_⟩
      rw [h2] at h
      simpa [DATA_TYPE_MAP, List.lookup] using h.symm
    · by_cases h3 : t = "video"
      · right; right
        refine ⟨h3, ?_⟩
        rw [h3] at h
        simpa [DATA_TYPE_MAP, List.lookup] using h.symm
      · exfalso
        have : DATA_TYPE_MAP.lookup t = none := by
          rw [lookup_eq_none_iff_not_mem_keys]
          simp [DATA_TYPE_MAP, h1, h2, h3]
        rw [this] at h
        exact Option.noConfusion h

theorem data_type_map_lookup_ne_str (t : String) (f : Feature)
    (h : DATA_TYPE_MAP.lookup t = some f) : t ≠ "str" := by
  rcases data_type_map_lookup_cases t f h with ⟨h1, _⟩ | ⟨h1, _⟩ | ⟨h1, _⟩ <;>
    (rw [h1]; intro hh; exact absurd hh (by decide))

/-! ## Lemmas about `cast_dataset_columns` -/

theorem cast_dataset_columns_append (l1 : List (String × String)) :
    ∀ (ds : Dataset) (l2 : List (String × String)),
    cast_dataset_columns ds (l1 ++ l2) =
      (match cast_dataset_columns ds l1 with
       | Except.ok d => cast_dataset_columns d l2
       | Except.error e => Except.error e) := by
  induction l1 with
  | nil => intro ds l2; rfl
  | cons p rest ih =>
    intro ds l2
    obtain ⟨column, feature_type⟩ := p
    by_cases hs : feature_type = "str"
    · simp only [List.cons_append, cast_dataset_columns, if_pos hs]
      exact ih ds l2
    · simp only [List.cons_append, cast_dataset_columns, if_neg hs]
      cases hm : DATA_TYPE_MAP.lookup feature_type with
      | none => rfl
      | some feature =>
        dsimp only
        cases hc : ds.cast_column column feature with
        | error e => rfl
        | ok d => exact ih d l2

theorem cast_dataset_columns_ok_names (cc : List (String × String)) :
    ∀ (ds ds2 : Dataset),
    cast_dataset_columns ds cc = Except.ok ds2 → ds2.column_names = ds.column_names := by
  induction cc with
  | nil =>
    intro ds ds2 h
    simp only [cast_dataset_columns] at h
    cases h
    rfl
  | cons p rest ih =>
    intro ds ds2 h
    obtain ⟨column, feature_type⟩ := p
    by_cases hs : feature_type = "str"
    · rw [cast_dataset_columns, if_pos hs] at h
      exact ih ds ds2 h
    · rw [cast_dataset_columns, if_neg hs] at h
      cases hm : DATA_TYPE_MAP.lookup feature_type with
      | none => rw [hm] at h; exact Except.noConfusion h
      | some feature =>
        rw [hm] at h
        dsimp only at h
        cases hc : ds.cast_column column feature with
        | error e => rw [hc] at h; exact Except.noConfusion h
        | ok d =>
          rw [hc] at h
          dsimp only at h
          rw [ih d ds2 h]
          exact cast_column_ok_names ds column feature d hc

theorem cast_dataset_columns_ok_lookup_isSome (cc : List (String × String)) :
    ∀ (ds ds2 : Dataset),
    cast_dataset_columns ds cc = Except.ok ds2 →
    ∀ col t, (col, t) ∈ cc → t ≠ "str" → (DATA_TYPE_MAP.lookup t).isSome := by
  induction cc with
  | nil =>
    intro ds ds2 _ col t ht
    exact absurd ht (by simp)
  | cons p rest ih =>
    intro ds ds2 h col t ht hts
    obtain ⟨column, feature_type⟩ := p
    rcases List.mem_cons.mp ht with he | he
    · have h1 : column = col := (Prod.mk.injEq .. ▸ he.symm).1
      have h2 : feature_type = t := (Prod.mk.injEq .. ▸ he.symm).2
      subst h1 h2
      rw [cast_dataset_columns, if_neg hts] at h
      cases hm : DATA_TYPE_MAP.lookup feature_type with
      | none => rw [hm] at h; exact Except.noConfusion h
      | some feature => rfl
    · by_cases hs : feature_type = "str"
      · rw [cast_dataset_columns, if_pos hs] at h
        exact ih ds ds2 h col t he hts
      · rw [cast_dataset_columns, if_neg hs] at h
        cases hm : DATA_TYPE_MAP.lookup feature_type with
        | none => rw [hm] at h; exact Except.noConfusion h
        | some feature =>
          rw [hm] at h
          dsimp only at h
          cases hc : ds.cast_column column feature with
          | error e => rw [hc] at h; exact Except.noConfusion h
          | ok d =>
            rw [hc] at h
            dsimp only at h
            exact ih d ds2 h col t he hts

theorem cast_dataset_columns_skip_feature (cc : List (String × String)) :
    ∀ (ds ds2 : Dataset) (col : String),
    (∀ t, (col, t) ∈ cc → t = "str") →
    cast_dataset_columns ds cc = Except.ok ds2 →
    ds2.feature_of col = ds.feature_of col := by
  induction cc with
  | nil =>
    intro ds ds2 col _ h
    simp only [cast_dataset_columns] at h
    cases h
    rfl
  | cons p rest ih =>
    intro ds ds2 col hstr h
    obtain ⟨column, feature_type⟩ := p
    have hrest : ∀ t, (col, t) ∈ rest → t = "str" := by
      intro t ht
      exact hstr t (List.mem_cons_of_mem _ ht)
    by_cases hs : feature_type = "str"
    · rw [cast_dataset_columns, if_pos hs] at h
      exact ih ds ds2 col hrest h
    · rw [cast_dataset_columns, if_neg hs] at h
      cases hm : DATA_TYPE_MAP.lookup feature_type with
      | none => rw [hm] at h; exact Except.noConfusion h
      | some feature =>
        rw [hm] at h
        dsimp only at h
        cases hc : ds.cast_column column feature with
        | error e => rw [hc] at h; exact Except.noConfusion h
        | ok d =>
          rw [hc] at h
          dsimp only at h
          have hne : col ≠ column := by
            intro hh
            exact hs (hstr feature_type (by rw [hh]; exact List.mem_cons_self _ _))
          rw [ih d ds2 col hrest h]
          exact cast_column_ok_feature_other ds column col feature d hc hne

theorem cast_dataset_columns_sets_feature (cc : List (String × String)) :
    ∀ (ds ds2 : Dataset) (col t : String) (f : Feature),
    (cc.map Prod.fst).Nodup →
    (col, t) ∈ cc →
    DATA_TYPE_MAP.lookup t = some f →
    cast_dataset_columns ds cc = Except.ok ds2 →
    ds2.feature_of col = some f := by
  induction cc with
  | nil =>
    intro ds ds2 col t f _ hmem
    exact absurd hmem (by simp)
  | cons p rest ih =>
    intro ds ds2 col t f hnodup hmem hlook h
    obtain ⟨column, feature_type⟩ := p
    have hnodup_rest : (rest.map Prod.fst).Nodup := (List.nodup_cons.mp hnodup).2
    have hnotmem : column ∉ rest.map Prod.fst := (List.nodup_cons.mp hnodup).1
    rcases List.mem_cons.mp hmem with he | he
    · have h1 : column = col := (Prod.mk.injEq .. ▸ he.symm).1
      have h2 : feature_type = t := (Prod.mk.injEq .. ▸ he.symm).2
      subst h1 h2
      have hts : feature_type ≠ "str" := data_type_map_lookup_ne_str feature_type f hlook
      rw [cast_dataset_columns, if_neg hts, hlook] at h
      dsimp only at h
      cases hc : ds.cast_column column f with
      | error e => rw [hc] at h; exact Except.noConfusion h
      | ok d =>
        rw [hc] at h
        dsimp only at h
        have hrest_skip : ∀ t2, (column, t2) ∈ rest → t2 = "str" := by
          intro t2 ht2
          exact absurd (List.mem_map_of_mem Prod.fst ht2) hnotmem
        rw [cast_dataset_columns_skip_feature rest d ds2 column hrest_skip h]
        exact cast_column_ok_feature_self ds column f d hc
    · have hcol_ne : column ≠ col := by
        intro hh
        apply hnotmem
        rw [hh]
        exact List.mem_map_of_mem Prod.fst he
      by_cases hs : feature_type = "str"
      · rw [cast_dataset_columns, if_pos hs] at h
        exact ih ds ds2 col t f hnodup_rest he hlook h
      · rw [cast_dataset_columns, if_neg hs] at h
        cases hm : DATA_TYPE_MAP.lookup feature_type with
        | none => rw [hm] at h; exact Except.noConfusion h
        | some feature =>
          rw [hm] at h
          dsimp only at h
          cases hc : ds.cast_column column feature with
          | error e => rw [hc] at h; exact Except.noConfusion h
          | ok d =>
            rw [hc] at h
            dsimp only at h
            exact ih d ds2 col t f hnodup_rest he hlook h

/-! ## Lemmas about the configuration validator -/

theorem validate_ok_of_all_present (c : DatasetConfig)
    (h : ∀ col ∈ c.dataframe_order, col ∈ c.cast_columns.map Prod.fst) :
    c.validate_columns_consistency = Except.ok c := by
  unfold DatasetConfig.validate_columns_consistency
  have hempty :
      (c.dataframe_order.filter
        (fun col => !(c.cast_columns.map Prod.fst).contains col)).isEmpty = true := by
    simp only [List.isEmpty_iff, List.filter_eq_nil_iff]
    intro a ha
    simp [h a ha]
  dsimp only
  split
  · rfl
  · rename_i hfalse
    exact absurd hempty hfalse

theorem validate_error_of_missing (c : DatasetConfig)
    (h : ∃ col ∈ c.dataframe_order, col ∉ c.cast_columns.map Prod.fst) :
    ∃ m, c.validate_columns_consistency = Except.error (PyError.valueError m) := by
  unfold DatasetConfig.validate_columns_consistency
  have hne :
      (c.dataframe_order.filter
        (fun col => !(c.cast_columns.map Prod.fst).contains col)).isEmpty = false := by
    obtain ⟨col, hcol, hnot⟩ := h
    rw [Bool.eq_false_iff]
    intro hempty
    rw [List.isEmpty_iff, List.filter_eq_nil_iff] at hempty
    exact hempty col hcol (by simp [hnot])
  dsimp only
  split
  · rename_i htrue
    rw [htrue] at hne
    exact Bool.noConfusion hne
  · exact ⟨_, rfl⟩

/-! ## Sample fixtures used by the witnesses -/

/-- A sample dataset configuration: two columns, one cast to `image`, one a
plain string. -/
def sampleDatasetConfig : DatasetConfig :=
  { annotation_path := "data.csv"
    dataframe_order := ["img", "txt"]
    cast_columns := [("img", "image"), ("txt", "str")]
    split := "train" }

/-- A sample hub configuration. -/
def sampleHFConfig : HuggingFaceConfig :=
  { repo_id := "user/demo"
    config_name := "default"
    commit_message := "init"
    «private» := true
    revision := "main" }

/-- The sample configuration combining the two. -/
def sampleConfig : Config :=
  { dataset := sampleDatasetConfig, huggingface := sampleHFConfig }

/-- A sample CSV file system: one readable file whose column order differs
from `dataframe_order`. -/
def sampleCsvFs : String → Option DataFrame :=
  fun p => if p = "data.csv" then some [("txt", ["hello"]), ("img", ["a.png"])] else none

/-- A sample YAML file system: one readable config file. -/
def sampleYamlFs : String → FileResult :=
  fun p =>
    if p = "cfg.yaml" then
      FileResult.yamlContent (ConfigDict.valid sampleDatasetConfig sampleHFConfig)
    else FileResult.absent

/-- A sample hub client that accepts every upload. -/
def sampleHub : PushCall → Except PyError Unit :=
  fun _ => Except.ok ()

/-! ## C4 — configuration validation -/

/-- C4: constructing a `Config` (or `DatasetConfig`) raises `ValueError` if
and only if some column listed in `dataframe_order` has no entry in
`cast_columns`; when every column of `dataframe_order` appears in
`cast_columns`, validation succeeds and returns the configuration
unchanged. -/
theorem claim_C4_validation (c : DatasetConfig) (h : HuggingFaceConfig) :
    ((∃ m, c.validate_columns_consistency = Except.error (PyError.valueError m)) ↔
      ∃ col ∈ c.dataframe_order, col ∉ c.cast_columns.map Prod.fst)
  ∧ ((∀ col ∈ c.dataframe_order, col ∈ c.cast_columns.map Prod.fst) →
      c.validate_columns_consistency = Except.ok c ∧
      Config.construct (ConfigDict.valid c h) =
        Except.ok { dataset := c, huggingface := h }) := by
  constructor
  · constructor
    · intro he
      by_contra hmiss
      push_neg at hmiss
      have := validate_ok_of_all_present c hmiss
      obtain ⟨m, hm⟩ := he
      rw [this] at hm
      exact Except.noConfusion hm
    · intro hmiss
      exact validate_error_of_missing c hmiss
  · intro hall
    have hok := validate_ok_of_all_present c hall
    refine ⟨hok, ?_⟩
    simp [Config.construct, hok]

/-- Witness for C4 at the sample configuration: every column of
`dataframe_order` has a cast entry and validation returns it unchanged. -/
theorem claim_C4_validation_witness :
    sampleDatasetConfig.validate_columns_consistency = Except.ok sampleDatasetConfig ∧
    Config.construct (ConfigDict.valid sampleDatasetConfig sampleHFConfig) =
      Except.ok sampleConfig :=
  (claim_C4_validation sampleDatasetConfig sampleHFConfig).2 (by decide)

/-! ## C6 — the YAML loader -/

/-- C6: `read_yaml` raises `FileNotFoundError` for every path that does not
exist, raises `YAMLError` when the file exists but cannot be parsed as YAML,
raises `PermissionError` when the file cannot be read for lack of
permission, and otherwise returns the parsed content of the file. -/
theorem claim_C6_read_yaml (fs : String → FileResult) (path : String) :
    (fs path = FileResult.absent →
      ∃ m, read_yaml fs path = Except.error (PyError.fileNotFoundError m))
  ∧ (fs path = FileResult.invalidYaml →
      ∃ m, read_yaml fs path = Except.error (PyError.yamlError m))
  ∧ (fs path = FileResult.permissionDenied →
      ∃ m, read_yaml fs path = Except.error (PyError.permissionError m))
  ∧ (∀ d, fs path = FileResult.yamlContent d → read_yaml fs path = Except.ok d) := by
  refine ⟨?_, ?_, ?_, ?_⟩
  · intro h
    exact ⟨"Config file not found: " ++ path, by simp [read_yaml, h]⟩
  · intro h
    exact ⟨"Failed to parse YAML file", by simp [read_yaml, h]⟩
  · intro h
    exact ⟨"Permission denied when reading: " ++ path, by simp [read_yaml, h]⟩
  · intro d h
    simp [read_yaml, h]

/-- Witness for C6: the sample YAML file system returns the parsed sample
config at the existing path. -/
theorem claim_C6_read_yaml_witness :
    read_yaml sampleYamlFs "cfg.yaml" =
      Except.ok (ConfigDict.valid sampleDatasetConfig sampleHFConfig) :=
  (claim_C6_read_yaml sampleYamlFs "cfg.yaml").2.2.2 _ rfl

/-! ## C7 — the publisher -/

/-- C7: `push_to_huggingface` always delegates the upload to the hub client
with the configured `repo_id`, `config_name`, `commit_message`, `private`
flag and `revision`, with the fixed shard size `"1GB"` and external-file
embedding enabled, regardless of the dataset's contents, and makes exactly
that one hub call. -/
theorem claim_C7_push_delegates (hub : PushCall → Except PyError Unit)
    (datasets_dict : DatasetDict) (config : Config) :
    ∃ call : PushCall,
      push_to_huggingface hub datasets_dict config = (hub call, [call]) ∧
      call.datasets_dict = datasets_dict ∧
      call.repo_id = config.huggingface.repo_id ∧
      call.config_name = config.huggingface.config_name ∧
      call.commit_message = config.huggingface.commit_message ∧
      call.«private» = config.huggingface.«private» ∧
      call.revision = config.huggingface.revision ∧
      call.max_shard_size = "1GB" ∧
      call.embed_external_files = true := by
  refine ⟨_, rfl, rfl, rfl, rfl, rfl, rfl, rfl, rfl, rfl⟩

/-! ## More helper lemmas -/

theorem nodup_keys_entry_unique {α : Type} (cc : List (String × α))
    (hnodup : (cc.map Prod.fst).Nodup) (col : String) (a b : α)
    (ha : (col, a) ∈ cc) (hb : (col, b) ∈ cc) : a = b := by
  induction cc with
  | nil => exact absurd ha (by simp)
  | cons p rest ih =>
    obtain ⟨k, v⟩ := p
    have hhead : k ∉ rest.map Prod.fst := (List.nodup_cons.mp hnodup).1
    have htail : (rest.map Prod.fst).Nodup := (List.nodup_cons.mp hnodup).2
    rcases List.mem_cons.mp ha with ha1 | ha1 <;> rcases List.mem_cons.mp hb with hb1 | hb1
    · have e1 : a = v := (Prod.mk.injEq .. ▸ ha1).2
      have e2 : b = v := (Prod.mk.injEq .. ▸ hb1).2
      rw [e1, e2]
    · exfalso
      apply hhead
      have : k = col := ((Prod.mk.injEq .. ▸ ha1).1).symm
      rw [this]
      exact List.mem_map_of_mem Prod.fst hb1
    · exfalso
      apply hhead
      have : k = col := ((Prod.mk.injEq .. ▸ hb1).1).symm
      rw [this]
      exact List.mem_map_of_mem Prod.fst ha1
    · exact ih htail ha1 hb1

theorem any_name_iff_mem_column_names (ds : Dataset) (col : String) :
    ds.any (fun c => c.name = col) = true ↔ col ∈ ds.column_names := by
  simp only [List.any_eq_true, Dataset.column_names, List.mem_map, decide_eq_true_eq]

theorem from_pandas_column_names (df : DataFrame) :
    (Dataset.from_pandas df).column_names = df.map Prod.fst := by
  simp [Dataset.from_pandas, Dataset.column_names, List.map_map]

/-! ## C5 — the table loader -/

/-- C5: for every CSV file whose columns include all names in
`dataframe_order`, `prepare_dataframe` returns a dataframe whose column
list is exactly `dataframe_order` in that order; if the CSV file does not
exist it raises `FileNotFoundError`, and if some configured column is
absent from the CSV it raises `KeyError`. -/
theorem claim_C5_prepare_dataframe (csvFs : String → Option DataFrame) (config : Config) :
    (∀ df, csvFs config.dataset.annotation_path = some df →
      (∀ c ∈ config.dataset.dataframe_order, (df.lookup c).isSome) →
      ∃ df2, prepare_dataframe csvFs config = Except.ok df2 ∧
        df2.map Prod.fst = config.dataset.dataframe_order)
  ∧ (csvFs config.dataset.annotation_path = none →
      ∃ m, prepare_dataframe csvFs config = Except.error (PyError.fileNotFoundError m))
  ∧ (∀ df, csvFs config.dataset.annotation_path = some df →
      (∃ c ∈ config.dataset.dataframe_order, df.lookup c = none) →
      ∃ m, prepare_dataframe csvFs config = Except.error (PyError.keyError m)) := by
  refine ⟨?_, ?_, ?_⟩
  · intro df hdf hall
    obtain ⟨df2, hdf2⟩ := selectColumns_ok_of_all_present df config.dataset.dataframe_order hall
    refine ⟨df2, ?_, selectColumns_ok_names df config.dataset.dataframe_order df2 hdf2⟩
    unfold prepare_dataframe
    rw [hdf]
    exact hdf2
  · intro hnone
    refine ⟨"CSV file not found: " ++ config.dataset.annotation_path, ?_⟩
    unfold prepare_dataframe
    rw [hnone]
  · intro df hdf hmiss
    obtain ⟨c, hc, hnone⟩ := hmiss
    obtain ⟨m, hm⟩ := selectColumns_error_of_missing df config.dataset.dataframe_order c hc hnone
    refine ⟨m, ?_⟩
    unfold prepare_dataframe
    rw [hdf]
    exact hm

/-- Witness for C5: on the sample file system, `prepare_dataframe` returns
the columns reordered to the configured order. -/
theorem claim_C5_prepare_dataframe_witness :
    ∃ df2, prepare_dataframe sampleCsvFs sampleConfig = Except.ok df2 ∧
      df2.map Prod.fst = sampleConfig.dataset.dataframe_order :=
  (claim_C5_prepare_dataframe sampleCsvFs sampleConfig).1 _ rfl (by decide)

/-! ## C2 — the column caster on declared columns -/

/-- C2: whenever `cast_dataset_columns` succeeds, every column whose
declared feature type is not `"str"` was mapped through `DATA_TYPE_MAP` to
one of exactly three fixed media feature types (audio, image, video) and
now carries that feature, while every column declared `"str"` was skipped
and its feature left unchanged. -/
theorem claim_C2_cast_columns (ds ds2 : Dataset) (cc : List (String × String))
    (hnodup : (cc.map Prod.fst).Nodup)
    (h : cast_dataset_columns ds cc = Except.ok ds2) :
    (∀ col t, (col, t) ∈ cc → t ≠ "str" →
      ∃ f, DATA_TYPE_MAP.lookup t = some f ∧
        (f = Feature.audio ∨ f = Feature.image ∨ f = Feature.video) ∧
        ds2.feature_of col = some f)
  ∧ (∀ col, (col, "str") ∈ cc → ds2.feature_of col = ds.feature_of col) := by
  constructor
  · intro col t hmem hts
    have hsome := cast_dataset_columns_ok_lookup_isSome cc ds ds2 h col t hmem hts
    obtain ⟨f, hf⟩ := Option.isSome_iff_exists.mp hsome
    refine ⟨f, hf, ?_, ?_⟩
    · rcases data_type_map_lookup_cases t f hf with ⟨_, h2⟩ | ⟨_, h2⟩ | ⟨_, h2⟩
      · exact Or.inl h2
      · exact Or.inr (Or.inl h2)
      · exact Or.inr (Or.inr h2)
    · exact cast_dataset_columns_sets_feature cc ds ds2 col t f hnodup hmem hf h
  · intro col hmem
    have hstr : ∀ t, (col, t) ∈ cc → t = "str" := by
      intro t ht
      exact nodup_keys_entry_unique cc hnodup col t "str" ht hmem
    exact cast_dataset_columns_skip_feature cc ds ds2 col hstr h

/-- Witness for C2 at a concrete dataset and cast configuration. -/
theorem claim_C2_cast_columns_witness :
    ∃ f, DATA_TYPE_MAP.lookup "image" = some f ∧
      (f = Feature.audio ∨ f = Feature.image ∨ f = Feature.video) ∧
      Dataset.feature_of
        [{ name := "img", feature := Feature.image, data := ["a.png"] },
         { name := "txt", feature := Feature.value, data := ["hello"] }] "img" = some f :=
  (claim_C2_cast_columns
    [{ name := "img", feature := Feature.value, data := ["a.png"] },
     { name := "txt", feature := Feature.value, data := ["hello"] }]
    [{ name := "img", feature := Feature.image, data := ["a.png"] },
     { name := "txt", feature := Feature.value, data := ["hello"] }]
    [("img", "image"), ("txt", "str")]
    (by decide) rfl).1 "img" "image" (by decide) (by decide)

/-! ## C3 — unknown feature types -/

/-- C3: for every `cast_columns` mapping containing a column whose declared
feature type is neither `"str"` nor one of `"audio"`, `"image"`, `"video"`,
`cast_dataset_columns` raises `KeyError` when it reaches that column (all
entries before it having been processed successfully), rather than skipping
it or casting it to a scalar type. -/
theorem claim_C3_unknown_type (ds ds1 : Dataset) (pre rest : List (String × String))
    (col t : String)
    (hstr : t ≠ "str") (ha : t ≠ "audio") (hi : t ≠ "image") (hv : t ≠ "video")
    (hpre : cast_dataset_columns ds pre = Except.ok ds1) :
    cast_dataset_columns ds (pre ++ (col, t) :: rest) =
      Except.error (PyError.keyError t) := by
  rw [cast_dataset_columns_append, hpre]
  dsimp only
  rw [cast_dataset_columns, if_neg hstr]
  have hnone : DATA_TYPE_MAP.lookup t = none := by
    rw [lookup_eq_none_iff_not_mem_keys]
    simp [DATA_TYPE_MAP, ha, hi, hv]
  rw [hnone]

/-- Witness for C3: the declared type `"int64"` is rejected with `KeyError`. -/
theorem claim_C3_unknown_type_witness :
    cast_dataset_columns [] ([] ++ ("x", "int64") :: []) =
      Except.error (PyError.keyError "int64") :=
  claim_C3_unknown_type [] [] [] [] "x" "int64" (by decide) (by decide) (by decide)
    (by decide) rfl

/-! ## C9 — validation is one-directional -/

/-- C9: config validation is one-directional: a configuration whose
`cast_columns` covers all of `dataframe_order` plus extra column names
validates successfully, and `cast_dataset_columns` still iterates over the
extra entries, attempting (and failing) to cast a column the prepared
dataframe does not contain. -/
theorem claim_C9_extra_entries (c : DatasetConfig) (ds ds1 : Dataset)
    (pre rest : List (String × String)) (col t : String) (f : Feature)
    (hall : ∀ x ∈ c.dataframe_order, x ∈ c.cast_columns.map Prod.fst)
    (hcc : c.cast_columns = pre ++ (col, t) :: rest)
    (hextra : col ∉ c.dataframe_order)
    (hnames : ds.column_names = c.dataframe_order)
    (hlook : DATA_TYPE_MAP.lookup t = some f)
    (hpre : cast_dataset_columns ds pre = Except.ok ds1) :
    c.validate_columns_consistency = Except.ok c ∧
    cast_dataset_columns ds c.cast_columns =
      Except.error (PyError.valueError ("Error casting column " ++ col)) := by
  refine ⟨validate_ok_of_all_present c hall, ?_⟩
  rw [hcc, cast_dataset_columns_append, hpre]
  dsimp only
  have hstr : t ≠ "str" := data_type_map_lookup_ne_str t f hlook
  rw [cast_dataset_columns, if_neg hstr, hlook]
  dsimp only
  have hnot : ds1.any (fun cl => cl.name = col) = false := by
    rw [Bool.eq_false_iff]
    intro hany
    have hmem := (any_name_iff_mem_column_names ds1 col).mp hany
    rw [cast_dataset_columns_ok_names pre ds ds1 hpre, hnames] at hmem
    exact hextra hmem
  rw [cast_column_error_of_not_mem ds1 col f hnot]

/-- Witness for C9: an extra `image` entry for a column absent from
`dataframe_order` passes validation but makes the cast loop fail. -/
theorem claim_C9_extra_entries_witness :
    DatasetConfig.validate_columns_consistency
        { annotation_path := "p.csv", dataframe_order := ["a"],
          cast_columns := [("a", "str"), ("b", "image")], split := "train" } =
      Except.ok
        { annotation_path := "p.csv", dataframe_order := ["a"],
          cast_columns := [("a", "str"), ("b", "image")], split := "train" } ∧
    cast_dataset_columns [{ name := "a", feature := Feature.value, data := [] }]
        [("a", "str"), ("b", "image")] =
      Except.error (PyError.valueError ("Error casting column " ++ "b")) :=
  claim_C9_extra_entries
    { annotation_path := "p.csv", dataframe_order := ["a"],
      cast_columns := [("a", "str"), ("b", "image")], split := "train" }
    [{ name := "a", feature := Feature.value, data := [] }]
    [{ name := "a", feature := Feature.value, data := [] }]
    [("a", "str")] [] "b" "image" Feature.image
    (by decide) rfl (by decide) (by decide) (by decide) rfl

/-- The hub call `create` makes on the sample fixtures. -/
def samplePushCall : PushCall :=
  { datasets_dict :=
      [("train",
        [{ name := "img", feature := Feature.image, data := ["a.png"] },
         { name := "txt", feature := Feature.value, data := ["hello"] }])]
    repo_id := "user/demo"
    config_name := "default"
    commit_message := "init"
    «private» := true
    revision := "main"
    max_shard_size := "1GB"
    embed_external_files := true }

/-! ## C10 — exactly one split is uploaded -/

/-- C10: the dataset dictionary handed to the publisher always contains
exactly one split, whose key is the configured split name and whose value
is the fully cast dataset; no other split is ever created or uploaded in
one invocation of `create`. -/
theorem claim_C10_single_split (yamlFs : String → FileResult)
    (csvFs : String → Option DataFrame) (hub : PushCall → Except PyError Unit)
    (config_path : String) (call : PushCall)
    (hcall : call ∈ (create yamlFs csvFs hub config_path).2) :
    ∃ (d : ConfigDict) (config : Config) (df : DataFrame) (ds : Dataset),
      read_yaml yamlFs config_path = Except.ok d ∧
      Config.construct d = Except.ok config ∧
      prepare_dataframe csvFs config = Except.ok df ∧
      cast_dataset_columns (Dataset.from_pandas df) config.dataset.cast_columns =
        Except.ok ds ∧
      call.datasets_dict = [(config.dataset.split, ds)] := by
  unfold create at hcall
  cases hy : read_yaml yamlFs config_path with
  | error e =>
    rw [hy] at hcall
    exact absurd hcall (by simp)
  | ok d =>
    rw [hy] at hcall
    dsimp only at hcall
    cases hc : Config.construct d with
    | error e =>
      rw [hc] at hcall
      exact absurd hcall (by simp)
    | ok config =>
      rw [hc] at hcall
      dsimp only at hcall
      cases hp : prepare_dataframe csvFs config with
      | error e =>
        rw [hp] at hcall
        exact absurd hcall (by simp)
      | ok df =>
        rw [hp] at hcall
        dsimp only at hcall
        cases hcast : cast_dataset_columns (Dataset.from_pandas df)
            config.dataset.cast_columns with
        | error e =>
          rw [hcast] at hcall
          exact absurd hcall (by simp)
        | ok ds =>
          rw [hcast] at hcall
          dsimp only at hcall
          unfold push_to_huggingface at hcall
          dsimp only at hcall
          rw [List.mem_singleton] at hcall
          refine ⟨d, config, df, ds, rfl, hc, hp, hcast, ?_⟩
          rw [hcall]

/-- Witness for C10: the concrete call made on the sample fixtures carries
the single configured split. -/
theorem claim_C10_single_split_witness :
    ∃ (d : ConfigDict) (config : Config) (df : DataFrame) (ds : Dataset),
      read_yaml sampleYamlFs "cfg.yaml" = Except.ok d ∧
      Config.construct d = Except.ok config ∧
      prepare_dataframe sampleCsvFs config = Except.ok df ∧
      cast_dataset_columns (Dataset.from_pandas df) config.dataset.cast_columns =
        Except.ok ds ∧
      samplePushCall.datasets_dict = [(config.dataset.split, ds)] :=
  claim_C10_single_split sampleYamlFs sampleCsvFs sampleHub "cfg.yaml" samplePushCall
    (by decide)

/-! ## C8 — log-and-re-raise, no retry -/

/-- C8: every exception raised inside a pipeline step (YAML reading, config
construction, dataframe preparation, column casting, upload) is re-raised
unchanged to the caller of `create`, no step is retried, and the upload is
attempted at most once per invocation: the hub-call trace has length at
most one, a failing step yields exactly its own error with no hub call, and
when every step succeeds the one hub call's own result is returned
unchanged. -/
theorem claim_C8_propagation (yamlFs : String → FileResult)
    (csvFs : String → Option DataFrame) (hub : PushCall → Except PyError Unit)
    (config_path : String) :
    (create yamlFs csvFs hub config_path).2.length ≤ 1
  ∧ (∀ e, read_yaml yamlFs config_path = Except.error e →
      create yamlFs csvFs hub config_path = (Except.error e, []))
  ∧ (∀ d e, read_yaml yamlFs config_path = Except.ok d →
      Config.construct d = Except.error e →
      create yamlFs csvFs hub config_path = (Except.error e, []))
  ∧ (∀ d config e, read_yaml yamlFs config_path = Except.ok d →
      Config.construct d = Except.ok config →
      prepare_dataframe csvFs config = Except.error e →
      create yamlFs csvFs hub config_path = (Except.error e, []))
  ∧ (∀ d config df e, read_yaml yamlFs config_path = Except.ok d →
      Config.construct d = Except.ok config →
      prepare_dataframe csvFs config = Except.ok df →
      cast_dataset_columns (Dataset.from_pandas df) config.dataset.cast_columns =
        Except.error e →
      create yamlFs csvFs hub config_path = (Except.error e, []))
  ∧ (∀ d config df ds, read_yaml yamlFs config_path = Except.ok d →
      Config.construct d = Except.ok config →
      prepare_dataframe csvFs config = Except.ok df →
      cast_dataset_columns (Dataset.from_pandas df) config.dataset.cast_columns =
        Except.ok ds →
      ∃ call, create yamlFs csvFs hub config_path = (hub call, [call])) := by
  refine ⟨?_, ?_, ?_, ?_, ?_, ?_⟩
  · unfold create
    cases read_yaml yamlFs config_path with
    | error e => simp
    | ok d =>
      dsimp only
      cases Config.construct d with
      | error e => simp
      | ok config =>
        dsimp only
        cases prepare_dataframe csvFs config with
        | error e => simp
        | ok df =>
          dsimp only
          cases cast_dataset_columns (Dataset.from_pandas df)
              config.dataset.cast_columns with
          | error e => simp
          | ok ds => simp [push_to_huggingface]
  · intro e he
    unfold create
    rw [he]
  · intro d e hd he
    unfold create
    rw [hd]
    dsimp only
    rw [he]
  · intro d config e hd hc he
    unfold create
    rw [hd]
    dsimp only
    rw [hc]
    dsimp only
    rw [he]
  · intro d config df e hd hc hp he
    unfold create
    rw [hd]
    dsimp only
    rw [hc]
    dsimp only
    rw [hp]
    dsimp only
    rw [he]
  · intro d config df ds hd hc hp hcast
    unfold create
    rw [hd]
    dsimp only
    rw [hc]
    dsimp only
    rw [hp]
    dsimp only
    rw [hcast]
    dsimp only
    exact ⟨_, rfl⟩

/-- Witness for C8: on the sample fixtures every step succeeds and the hub
client is called exactly once. -/
theorem claim_C8_propagation_witness :
    ∃ call, create sampleYamlFs sampleCsvFs sampleHub "cfg.yaml" =
      (sampleHub call, [call]) :=
  (claim_C8_propagation sampleYamlFs sampleCsvFs sampleHub "cfg.yaml").2.2.2.2.2
    (ConfigDict.valid sampleDatasetConfig sampleHFConfig) sampleConfig
    [("img", ["a.png"]), ("txt", ["hello"])]
    [{ name := "img", feature := Feature.image, data := ["a.png"] },
     { name := "txt", feature := Feature.value, data := ["hello"] }]
    rfl rfl rfl rfl

/-! ## C1 — end-to-end schema of the uploaded dataset -/

/-- C1: for every well-formed configuration (one that `Config`
construction, hence validation, accepts) and every input CSV readable at
the configured `annotation_path` containing all columns of
`dataframe_order`, any dataset `create` hands to the publisher has exactly
the configured columns in the order given by `dataframe_order`, and every
column whose declared cast type is `audio`, `image` or `video` carries the
corresponding media feature type. -/
theorem claim_C1_output_schema (yamlFs : String → FileResult)
    (csvFs : String → Option DataFrame) (hub : PushCall → Except PyError Unit)
    (config_path : String) (d : ConfigDict) (config : Config) (df : DataFrame)
    (hyaml : read_yaml yamlFs config_path = Except.ok d)
    (hconstruct : Config.construct d = Except.ok config)
    (hcsv : csvFs config.dataset.annotation_path = some df)
    (hcols : ∀ c ∈ config.dataset.dataframe_order, (df.lookup c).isSome)
    (hnodup : (config.dataset.cast_columns.map Prod.fst).Nodup) :
    ∀ call ∈ (create yamlFs csvFs hub config_path).2,
      ∃ ds : Dataset,
        call.datasets_dict = [(config.dataset.split, ds)] ∧
        ds.column_names = config.dataset.dataframe_order ∧
        ∀ col t f, (col, t) ∈ config.dataset.cast_columns →
          DATA_TYPE_MAP.lookup t = some f →
          ds.feature_of col = some f := by
  intro call hcall
  obtain ⟨df2, hdf2sel⟩ :=
    selectColumns_ok_of_all_present df config.dataset.dataframe_order hcols
  have hnames := selectColumns_ok_names df config.dataset.dataframe_order df2 hdf2sel
  have hdf2 : prepare_dataframe csvFs config = Except.ok df2 := by
    unfold prepare_dataframe
    rw [hcsv]
    exact hdf2sel
  unfold create at hcall
  rw [hyaml] at hcall
  dsimp only at hcall
  rw [hconstruct] at hcall
  dsimp only at hcall
  rw [hdf2] at hcall
  dsimp only at hcall
  cases hcast : cast_dataset_columns (Dataset.from_pandas df2)
      config.dataset.cast_columns with
  | error e =>
    rw [hcast] at hcall
    exact absurd hcall (by simp)
  | ok ds =>
    rw [hcast] at hcall
    dsimp only at hcall
    unfold push_to_huggingface at hcall
    dsimp only at hcall
    rw [List.mem_singleton] at hcall
    refine ⟨ds, by rw [hcall], ?_, ?_⟩
    · rw [cast_dataset_columns_ok_names config.dataset.cast_columns
        (Dataset.from_pandas df2) ds hcast, from_pandas_column_names, hnames]
    · intro col t f hmem hlook
      exact cast_dataset_columns_sets_feature config.dataset.cast_columns
        (Dataset.from_pandas df2) ds col t f hnodup hmem hlook hcast

/-- Witness for C1: on the sample fixtures the pushed dataset carries the
configured columns in order with the configured media features. -/
theorem claim_C1_output_schema_witness :
    ∃ ds : Dataset,
      samplePushCall.datasets_dict = [(sampleConfig.dataset.split, ds)] ∧
      ds.column_names = sampleConfig.dataset.dataframe_order ∧
      ∀ col t f, (col, t) ∈ sampleConfig.dataset.cast_columns →
        DATA_TYPE_MAP.lookup t = some f →
        ds.feature_of col = some f :=
  claim_C1_output_schema sampleYamlFs sampleCsvFs sampleHub "cfg.yaml"
    (ConfigDict.valid sampleDatasetConfig sampleHFConfig) sampleConfig
    [("txt", ["hello"]), ("img", ["a.png"])]
    rfl rfl rfl (by decide) (by decide) samplePushCall (by decide)
